import Mathlib

/-!
Verification development for the `notifier` library
(`src/slack_bot/notifications.py`).

Python strings are modelled as `List Char` (`Str`); module-level integer
constants keep their source names.  The impure parts of the code are made
explicit: the wall-clock timestamp captured by `set_body` is an argument
supplied by a `clock` environment, and the outcome of each HTTP POST is
decided by an `oracle` indexed by the number of POSTs issued so far.
Exceptions are modelled with `Except`.
-/

/-- Python `str`, modelled as its sequence of characters. -/
abbrev Str := List Char

/-- `LIMIT: int = 2000` — maximum chunk length. -/
def LIMIT : Nat := 2000

/-- `POST_TIMEOUT: int = 10` — per-attempt HTTP timeout in seconds. -/
def POST_TIMEOUT : Nat := 10

/-- `MAX_FAILURE_ATTEMPTS: int = 3` — total attempts per chunk. -/
def MAX_FAILURE_ATTEMPTS : Nat := 3

/-- `WAIT_AFTER_FAILURE: int = 5000` — delay (ms) between attempts. -/
def WAIT_AFTER_FAILURE : Nat := 5000

/-- `split_text_into_chunks(text, max_length)`: the Python loop
`for i in range(0, len(text), max_length): chunks.append(text[i:i + max_length])`.
Each iteration takes the next `max_length` characters.  (For
`max_length = 0` the Python `range` raises `ValueError`; the claims only
concern positive `max_length`, where this recursion is exact.) -/
def split_text_into_chunks (text : Str) (max_length : Nat) : List Str :=
  if h : text = [] ∨ max_length = 0 then []
  else
    text.take max_length :: split_text_into_chunks (text.drop max_length) max_length
termination_by text.length
decreasing_by
  have h1 : text ≠ [] := fun hh => h (Or.inl hh)
  have h2 : max_length ≠ 0 := fun hh => h (Or.inr hh)
  have h3 : 0 < text.length := List.length_pos.mpr h1
  simp only [List.length_drop]
  omega

/-- Severity levels accepted by the public entry points
(`info` / `warning` / `error`): the valid keys of `LEVELS`. -/
inductive Level where
  | info
  | warning
  | error
deriving DecidableEq

/-- One entry of the `LEVELS` table. -/
structure LevelStyle where
  level : Str
  text_icon : Str
  icon_emoji : Str
deriving DecidableEq

/-- The module-level `LEVELS` dict (Slack styling), verbatim from source
(note the source's `icon_emoji` for info really is `'information_source:'`,
with no leading colon). -/
def LEVELS : Level → LevelStyle
  | Level.info =>
    { level := "INFO".toList
      text_icon := ":large_blue_circle:".toList
      icon_emoji := "information_source:".toList }
  | Level.warning =>
    { level := "WARNING".toList
      text_icon := ":large_yellow_circle:".toList
      icon_emoji := ":warning:".toList }
  | Level.error =>
    { level := "ERROR".toList
      text_icon := ":red_circle:".toList
      icon_emoji := ":red_circle:".toList }

/-- One entry of the `LEVELS_TEAMS` table. -/
structure LevelStyleTeams where
  level : Str
  text_icon : Str
deriving DecidableEq

/-- The module-level `LEVELS_TEAMS` dict (Teams styling), verbatim from source. -/
def LEVELS_TEAMS : Level → LevelStyleTeams
  | Level.info => { level := "INFO".toList, text_icon := "&#x2139;&#xFE0F;".toList }
  | Level.warning => { level := "WARNING".toList, text_icon := "&#128310;".toList }
  | Level.error => { level := "ERROR".toList, text_icon := "&#128308;".toList }

/-- The `echo` argument: Python `None`, a single `str`, or a `list` of `str`. -/
inductive Echo where
  | none
  | single (s : Str)
  | list (l : List Str)

/-- Rendering of `echo` inside `SlackNotifier.set_body`:
`None` becomes the empty string, a list becomes the at-prefixed elements
joined by single spaces, and a single value becomes the at-prefixed value. -/
def render_echo : Echo → Str
  | Echo.none => []
  | Echo.single s => '@' :: s
  | Echo.list l => List.intercalate " ".toList (l.map (fun x => '@' :: x))

/-- The inner text dict of a Slack block. -/
structure SlackBlockText where
  type : Str
  text : Str
deriving DecidableEq

/-- One element of the Slack `blocks` array. -/
structure SlackBlock where
  type : Str
  text : SlackBlockText
deriving DecidableEq

/-- The Slack payload dict returned by `SlackNotifier.set_body`. -/
structure SlackBody where
  username : Str
  icon_emoji : Str
  blocks : List SlackBlock
deriving DecidableEq

/-- The Teams payload dict returned by `TeamsNotifier.set_body`. -/
structure TeamsBody where
  text : Str
deriving DecidableEq

/-- `SlackNotifier.set_body`.  `name` and `username` are the instance
attributes; `date` is the `datetime.datetime.now()` string, supplied by the
environment since it is impure.  The message text is the f-string
concatenation from the source, overridden to the bare chunk text when
`chunk_id > 1`. -/
def slack_set_body (name username : Str) (level : Level) (text : Str)
    (chunk_id : Nat) (echo : Echo) (date : Str) : SlackBody :=
  let level_text := (LEVELS level).level
  let text_icon := (LEVELS level).text_icon
  let icon_emoji := (LEVELS level).icon_emoji
  let echo_str := render_echo echo
  let message_text :=
    text_icon ++ " ".toList ++ echo_str ++ " ".toList ++ date ++ " [".toList
      ++ name ++ "]".toList ++ " ".toList ++ level_text ++ ":\n".toList ++ text
  let message_text := if chunk_id > 1 then text else message_text
  { username := username
    icon_emoji := icon_emoji
    blocks := [{ type := "section".toList
                 text := { type := "mrkdwn".toList, text := message_text } }] }

/-- `TeamsNotifier.set_body`.  The `chunk_id` and `echo` parameters are in
the Python signature but unused by the body; `username` is an instance
attribute also unused here.  The text is the f-string concatenation from
the source. -/
def teams_set_body (name username : Str) (level : Level) (text : Str)
    (chunk_id : Nat) (echo : Echo) (date : Str) : TeamsBody :=
  let level_text := (LEVELS_TEAMS level).level
  let text_icon := (LEVELS_TEAMS level).text_icon
  { text := text_icon ++ " ".toList ++ date ++ " [".toList ++ name
      ++ "] ".toList ++ " ".toList ++ level_text ++ ":  ".toList ++ text }

/-- Follows the spec's words (section 4.2): the Slack first-chunk body text
format "icon, space, mentions, space, timestamp, space-bracket, senderLabel,
bracket-space, LEVEL, colon + newline, chunkText". -/
def spec_slack_first_chunk_text (icon mentions timestamp senderLabel
    level_label chunkText : Str) : Str :=
  icon ++ " ".toList ++ mentions ++ " ".toList ++ timestamp ++ " [".toList
    ++ senderLabel ++ "] ".toList ++ level_label ++ ":\n".toList ++ chunkText

/-- Follows the spec's words (section 4.2): the Teams body text format
"icon, space, timestamp, space-bracket, senderLabel, bracket-two-spaces,
LEVEL, colon-two-spaces, chunkText", used for every chunk. -/
def spec_teams_chunk_text (icon timestamp senderLabel level_label
    chunkText : Str) : Str :=
  icon ++ " ".toList ++ timestamp ++ " [".toList ++ senderLabel
    ++ "]  ".toList ++ level_label ++ ":  ".toList ++ chunkText

/-- The `NotifierError` exception.  The transport wraps every failure
(non-200 status, network fault, unexpected fault) into this one kind; its
message string is irrelevant to the claims, so it is not carried. -/
inductive NotifierError where
  | transport
deriving DecidableEq

/-- Observable effects of a run: the HTTP POSTs issued (URL and JSON body,
in order) and the retry sleeps performed (durations in ms, in order). -/
structure World (B : Type) where
  posts : List (Str × B)
  waits : List Nat
deriving DecidableEq

/-- The retry loop produced by
`@retry(stop_max_attempt_number=MAX_FAILURE_ATTEMPTS, wait_fixed=WAIT_AFTER_FAILURE)`
around `send_message`, with `k` attempts remaining.  One attempt issues a
POST whose outcome is `oracle` applied to the number of POSTs issued so far;
a failed attempt raises `NotifierError` inside `send_message`; the retry
decorator sleeps `WAIT_AFTER_FAILURE` ms and retries while attempts remain,
and re-raises the original `NotifierError` after the final failed attempt
(`retrying` with its default `wrap_exception=False`). -/
def send_message_go {B : Type} (oracle : Nat → Bool) (url : Str) (body : B) :
    Nat → World B → Except NotifierError Unit × World B
  | 0, w => (Except.error NotifierError.transport, w)
  | Nat.succ k, w =>
    let w1 : World B := { w with posts := w.posts ++ [(url, body)] }
    if oracle w.posts.length then (Except.ok (), w1)
    else
      match k with
      | 0 => (Except.error NotifierError.transport, w1)
      | Nat.succ k2 =>
        send_message_go oracle url body (Nat.succ k2)
          { w1 with waits := w1.waits ++ [WAIT_AFTER_FAILURE] }

/-- `AbstractNotifier.send_message` under its retry decorator: up to
`MAX_FAILURE_ATTEMPTS` attempts in total. -/
def send_message {B : Type} (oracle : Nat → Bool) (url : Str) (body : B)
    (w : World B) : Except NotifierError Unit × World B :=
  send_message_go oracle url body MAX_FAILURE_ATTEMPTS w

/-- The `AbstractNotifier` interface: the `url` property and the abstract
`set_body(level, text, chunk_id, echo)` (plus the build-time timestamp,
made explicit). -/
structure AbstractNotifier (B : Type) where
  url : Str
  set_body : Level → Str → Nat → Echo → Str → B

/-- `SlackNotifier.__init__`: stores the url; `username` defaults to
`os.path.basename(__file__)` and `name` to `__name__`. -/
def slack_notifier (url : Str) (name username : Option Str) :
    AbstractNotifier SlackBody :=
  let username2 := username.getD "notifications.py".toList
  let name2 := name.getD "slack_bot.notifications".toList
  { url := url
    set_body := fun level text chunk_id echo date =>
      slack_set_body name2 username2 level text chunk_id echo date }

/-- `TeamsNotifier.__init__`: same attribute handling as the Slack variant. -/
def teams_notifier (url : Str) (name username : Option Str) :
    AbstractNotifier TeamsBody :=
  let username2 := username.getD "notifications.py".toList
  let name2 := name.getD "slack_bot.notifications".toList
  { url := url
    set_body := fun level text chunk_id echo date =>
      teams_set_body name2 username2 level text chunk_id echo date }

/-- The `for text_chunk in split_text: ... send_message ...; chunk_id += 1`
loop inside the `try` of `send_log_message`.  A `NotifierError` escaping
`send_message` propagates out of the loop (the `except` is outside it). -/
def send_chunks {B : Type} (n : AbstractNotifier B) (oracle : Nat → Bool)
    (clock : Nat → Str) (level : Level) (echo : Echo) :
    List Str → Nat → World B → Except NotifierError Unit × World B
  | [], _, w => (Except.ok (), w)
  | c :: rest, chunk_id, w =>
    let body := n.set_body level c chunk_id echo (clock chunk_id)
    match send_message oracle n.url body w with
    | (Except.ok _, w2) => send_chunks n oracle clock level echo rest (chunk_id + 1) w2
    | (Except.error e, w2) => (Except.error e, w2)

/-- Python truthiness of the `text` argument (`if not text`): `None` and
the empty string are falsy. -/
def truthy : Option Str → Bool
  | Option.none => false
  | Option.some s => !s.isEmpty

/-- `AbstractNotifier.send_log_message`.  Empty/absent text logs and
returns.  Otherwise the chunk loop runs inside `try`; a `NotifierError`
reaching the `except` clause is logged and swallowed, so the caller always
gets a normal return (`Except.ok`) — an uncaught exception would be
`Except.error`.  The first component is the instance state after the call
(no statement of the method assigns to `self`). -/
def send_log_message {B : Type} (n : AbstractNotifier B) (oracle : Nat → Bool)
    (clock : Nat → Str) (level : Level) (text : Option Str) (echo : Echo)
    (w : World B) : AbstractNotifier B × Except NotifierError (World B) :=
  if truthy text = false then (n, Except.ok w)
  else
    match send_chunks n oracle clock level echo
        (split_text_into_chunks (text.getD []) LIMIT) 1 w with
    | (Except.ok _, w2) => (n, Except.ok w2)
    | (Except.error _, w2) => (n, Except.ok w2)

/-- `AbstractNotifier.info`. -/
def info {B : Type} (n : AbstractNotifier B) (oracle : Nat → Bool)
    (clock : Nat → Str) (text : Option Str) (echo : Echo) (w : World B) :
    AbstractNotifier B × Except NotifierError (World B) :=
  send_log_message n oracle clock Level.info text echo w

/-- `AbstractNotifier.warning`. -/
def warning {B : Type} (n : AbstractNotifier B) (oracle : Nat → Bool)
    (clock : Nat → Str) (text : Option Str) (echo : Echo) (w : World B) :
    AbstractNotifier B × Except NotifierError (World B) :=
  send_log_message n oracle clock Level.warning text echo w

/-- `AbstractNotifier.error`. -/
def error {B : Type} (n : AbstractNotifier B) (oracle : Nat → Bool)
    (clock : Nat → Str) (text : Option Str) (echo : Echo) (w : World B) :
    AbstractNotifier B × Except NotifierError (World B) :=
  send_log_message n oracle clock Level.error text echo w

theorem split_text_into_chunks_nil (m : Nat) : split_text_into_chunks [] m = [] := by
  unfold split_text_into_chunks
  simp

theorem split_text_into_chunks_cons (t : Str) (m : Nat) (h1 : t ≠ []) (h2 : 0 < m) :
    split_text_into_chunks t m = t.take m :: split_text_into_chunks (t.drop m) m := by
  have hne : ¬(t = [] ∨ m = 0) := by
    push_neg
    exact ⟨h1, by omega⟩
  conv_lhs => rw [split_text_into_chunks.eq_def]
  rw [dif_neg hne]

theorem split_join_aux (m : Nat) (hm : 0 < m) :
    ∀ k (t : Str), t.length ≤ k → (split_text_into_chunks t m).flatten = t := by
  intro k
  induction k with
  | zero =>
    intro t ht
    have hnil : t = [] := List.eq_nil_of_length_eq_zero (Nat.le_zero.mp ht)
    subst hnil
    simp [split_text_into_chunks_nil]
  | succ k ih =>
    intro t ht
    by_cases h : t = []
    · subst h; simp [split_text_into_chunks_nil]
    · rw [split_text_into_chunks_cons t m h hm]
      have hlen : (t.drop m).length ≤ k := by
        have hpos : 0 < t.length := List.length_pos.mpr h
        simp only [List.length_drop]
        omega
      simp only [List.flatten_cons, ih (t.drop m) hlen]
      exact List.take_append_drop m t

theorem split_join (m : Nat) (hm : 0 < m) (t : Str) :
    (split_text_into_chunks t m).flatten = t :=
  split_join_aux m hm t.length t le_rfl

theorem split_chunk_le_aux (m : Nat) (hm : 0 < m) :
    ∀ k (t : Str), t.length ≤ k →
      ∀ c ∈ split_text_into_chunks t m, c.length ≤ m := by
  intro k
  induction k with
  | zero =>
    intro t ht c hc
    have hnil : t = [] := List.eq_nil_of_length_eq_zero (Nat.le_zero.mp ht)
    subst hnil
    simp [split_text_into_chunks_nil] at hc
  | succ k ih =>
    intro t ht c hc
    by_cases h : t = []
    · subst h; simp [split_text_into_chunks_nil] at hc
    · rw [split_text_into_chunks_cons t m h hm, List.mem_cons] at hc
      rcases hc with hc | hc
      · subst hc
        exact List.length_take_le m t
      · have hlen : (t.drop m).length ≤ k := by
          have hpos : 0 < t.length := List.length_pos.mpr h
          simp only [List.length_drop]
          omega
        exact ih (t.drop m) hlen c hc

theorem split_chunk_le (m : Nat) (hm : 0 < m) (t : Str) :
    ∀ c ∈ split_text_into_chunks t m, c.length ≤ m :=
  split_chunk_le_aux m hm t.length t le_rfl

theorem split_length_aux (m : Nat) (hm : 0 < m) :
    ∀ k (t : Str), t.length ≤ k →
      (split_text_into_chunks t m).length = (t.length + m - 1) / m := by
  intro k
  induction k with
  | zero =>
    intro t ht
    have hnil : t = [] := List.eq_nil_of_length_eq_zero (Nat.le_zero.mp ht)
    subst hnil
    rw [split_text_into_chunks_nil]
    simp [Nat.div_eq_of_lt (show m - 1 < m by omega)]
  | succ k ih =>
    intro t ht
    by_cases h : t = []
    · subst h
      rw [split_text_into_chunks_nil]
      simp [Nat.div_eq_of_lt (show m - 1 < m by omega)]
    · rw [split_text_into_chunks_cons t m h hm]
      have hpos : 0 < t.length := List.length_pos.mpr h
      have hlen : (t.drop m).length ≤ k := by
        simp only [List.length_drop]
        omega
      rw [List.length_cons, ih (t.drop m) hlen]
      simp only [List.length_drop]
      rcases Nat.le_total t.length m with hle | hgt
      · have e1 : t.length - m = 0 := by omega
        rw [e1]
        have e2 : (0 + m - 1) / m = 0 := Nat.div_eq_of_lt (by omega)
        rw [e2]
        have e3 : (t.length + m - 1) / m = 1 := by
          apply Nat.div_eq_of_lt_le
          · omega
          · omega
        omega
      · have e1 : t.length - m + m - 1 = t.length - 1 := by omega
        rw [e1]
        have e2 : t.length + m - 1 = (t.length - 1) + m := by omega
        rw [e2, Nat.add_div_right _ hm]

theorem split_length (m : Nat) (hm : 0 < m) (t : Str) :
    (split_text_into_chunks t m).length = (t.length + m - 1) / m :=
  split_length_aux m hm t.length t le_rfl

theorem send_message_ok {B : Type} (oracle : Nat → Bool) (url : Str) (body : B)
    (w : World B) (h0 : oracle w.posts.length = true) :
    send_message oracle url body w =
      (Except.ok (), { w with posts := w.posts ++ [(url, body)] }) := by
  simp [send_message, MAX_FAILURE_ATTEMPTS, send_message_go, h0]

theorem send_message_fos {B : Type} (oracle : Nat → Bool) (url : Str) (body : B)
    (w : World B) (h0 : oracle w.posts.length = false)
    (h1 : oracle (w.posts.length + 1) = true) :
    send_message oracle url body w =
      (Except.ok (), { posts := w.posts ++ [(url, body), (url, body)],
                       waits := w.waits ++ [WAIT_AFTER_FAILURE] }) := by
  simp [send_message, MAX_FAILURE_ATTEMPTS, send_message_go, h0, h1]

theorem send_message_ffs {B : Type} (oracle : Nat → Bool) (url : Str) (body : B)
    (w : World B) (h0 : oracle w.posts.length = false)
    (h1 : oracle (w.posts.length + 1) = false)
    (h2 : oracle (w.posts.length + 2) = true) :
    send_message oracle url body w =
      (Except.ok (), { posts := w.posts ++ [(url, body), (url, body), (url, body)],
                       waits := w.waits ++ [WAIT_AFTER_FAILURE, WAIT_AFTER_FAILURE] }) := by
  simp [send_message, MAX_FAILURE_ATTEMPTS, send_message_go, h0, h1, h2,
    List.append_assoc]

theorem send_message_fff {B : Type} (oracle : Nat → Bool) (url : Str) (body : B)
    (w : World B) (h0 : oracle w.posts.length = false)
    (h1 : oracle (w.posts.length + 1) = false)
    (h2 : oracle (w.posts.length + 2) = false) :
    send_message oracle url body w =
      (Except.error NotifierError.transport,
        { posts := w.posts ++ [(url, body), (url, body), (url, body)],
          waits := w.waits ++ [WAIT_AFTER_FAILURE, WAIT_AFTER_FAILURE] }) := by
  simp [send_message, MAX_FAILURE_ATTEMPTS, send_message_go, h0, h1, h2,
    List.append_assoc]

theorem send_message_go_posts_le {B : Type} (oracle : Nat → Bool) (url : Str)
    (body : B) :
    ∀ k (w : World B),
      ((send_message_go oracle url body k w).2.posts.length ≤ w.posts.length + k) := by
  intro k
  induction k with
  | zero =>
    intro w
    simp [send_message_go]
  | succ k ih =>
    intro w
    unfold send_message_go
    by_cases h : oracle w.posts.length
    · simp [h]
    · simp only [h]
      cases k with
      | zero => simp
      | succ k2 =>
        simp only [Bool.false_eq_true, if_false]
        have hrec := ih { w with
          posts := w.posts ++ [(url, body)],
          waits := w.waits ++ [WAIT_AFTER_FAILURE] }
        simp only [Nat.succ_eq_add_one, List.length_append, List.length_cons,
          List.length_nil] at hrec ⊢
        omega

theorem send_message_posts_le {B : Type} (oracle : Nat → Bool) (url : Str)
    (body : B) (w : World B) :
    (send_message oracle url body w).2.posts.length ≤
      w.posts.length + MAX_FAILURE_ATTEMPTS :=
  send_message_go_posts_le oracle url body MAX_FAILURE_ATTEMPTS w

theorem send_chunks_cons_err {B : Type} (n : AbstractNotifier B)
    (oracle : Nat → Bool) (clock : Nat → Str) (level : Level) (echo : Echo)
    (c : Str) (rest : List Str) (chunk_id : Nat) (w : World B)
    (e : NotifierError) (sw : World B)
    (h : send_message oracle n.url (n.set_body level c chunk_id echo (clock chunk_id)) w
          = (Except.error e, sw)) :
    send_chunks n oracle clock level echo (c :: rest) chunk_id w =
      (Except.error e, sw) := by
  unfold send_chunks
  simp only [h]

theorem truthy_some_of_ne_nil (t : Str) (ht : t ≠ []) :
    truthy (Option.some t) = true := by
  simp [truthy, List.isEmpty_iff, ht]

theorem send_log_message_allfail {B : Type} (n : AbstractNotifier B)
    (oracle : Nat → Bool) (clock : Nat → Str) (level : Level) (echo : Echo)
    (t : Str) (w : World B)
    (h0 : oracle w.posts.length = false)
    (h1 : oracle (w.posts.length + 1) = false)
    (h2 : oracle (w.posts.length + 2) = false)
    (ht : t ≠ []) :
    send_log_message n oracle clock level (Option.some t) echo w =
      (n, Except.ok
        { posts := w.posts ++
            List.replicate 3 (n.url, n.set_body level (t.take LIMIT) 1 echo (clock 1)),
          waits := w.waits ++ [WAIT_AFTER_FAILURE, WAIT_AFTER_FAILURE] }) := by
  have htr : truthy (Option.some t) = true := truthy_some_of_ne_nil t ht
  have hsplit := split_text_into_chunks_cons t LIMIT ht (by decide)
  have hfail := send_message_fff oracle n.url
    (n.set_body level (t.take LIMIT) 1 echo (clock 1)) w h0 h1 h2
  unfold send_log_message
  rw [htr]
  simp only [Option.getD, Bool.true_eq_false, if_false]
  rw [hsplit]
  rw [send_chunks_cons_err n oracle clock level echo (t.take LIMIT) _ 1 w
    NotifierError.transport _ hfail]
  rfl

theorem send_log_message_shape {B : Type} (n : AbstractNotifier B)
    (oracle : Nat → Bool) (clock : Nat → Str) (level : Level)
    (text : Option Str) (echo : Echo) (w : World B) :
    ∃ w2, send_log_message n oracle clock level text echo w = (n, Except.ok w2) := by
  unfold send_log_message
  by_cases h : truthy text = false
  · rw [if_pos h]
    exact ⟨w, rfl⟩
  · rw [if_neg h]
    rcases hsc : send_chunks n oracle clock level echo
        (split_text_into_chunks (text.getD []) LIMIT) 1 w with ⟨r, w2⟩
    cases r with
    | ok u => exact ⟨w2, rfl⟩
    | error e => exact ⟨w2, rfl⟩

theorem send_log_message_fst {B : Type} (n : AbstractNotifier B)
    (oracle : Nat → Bool) (clock : Nat → Str) (level : Level)
    (text : Option Str) (echo : Echo) (w : World B) :
    (send_log_message n oracle clock level text echo w).1 = n := by
  obtain ⟨w2, hw⟩ := send_log_message_shape n oracle clock level text echo w
  rw [hw]

theorem seg_bracket_space : ("] ".toList : Str) = "]".toList ++ " ".toList := by
  decide

theorem seg_bracket_two_spaces : ("]  ".toList : Str) = "] ".toList ++ " ".toList := by
  decide

theorem slack_set_body_chunk1 (name username : Str) (level : Level) (text : Str)
    (echo : Echo) (date : Str) :
    slack_set_body name username level text 1 echo date =
      { username := username
        icon_emoji := (LEVELS level).icon_emoji
        blocks := [{ type := "section".toList
                     text := { type := "mrkdwn".toList
                               text := spec_slack_first_chunk_text
                                 (LEVELS level).text_icon (render_echo echo)
                                 date name (LEVELS level).level text } }] } := by
  unfold slack_set_body spec_slack_first_chunk_text
  simp [seg_bracket_space, List.append_assoc]

theorem slack_set_body_contd (name username : Str) (level : Level) (text : Str)
    (chunk_id : Nat) (echo : Echo) (date : Str) (h : 1 < chunk_id) :
    slack_set_body name username level text chunk_id echo date =
      { username := username
        icon_emoji := (LEVELS level).icon_emoji
        blocks := [{ type := "section".toList
                     text := { type := "mrkdwn".toList, text := text } }] } := by
  simp only [slack_set_body]
  rw [if_pos h]

theorem teams_set_body_text (name username : Str) (level : Level) (text : Str)
    (chunk_id : Nat) (echo : Echo) (date : Str) :
    (teams_set_body name username level text chunk_id echo date).text =
      spec_teams_chunk_text (LEVELS_TEAMS level).text_icon date name
        (LEVELS_TEAMS level).level text := by
  unfold teams_set_body spec_teams_chunk_text
  simp [seg_bracket_two_spaces, seg_bracket_space, List.append_assoc]

/-- C2: for every string `s` and positive `n`, `split_text_into_chunks s n`
is a sequence of consecutive non-overlapping substrings whose concatenation
is exactly `s` (their flattening reproduces `s`), each chunk has length at
most `n`, the chunk count is the ceiling of `len s / n` (written
`(len s + n - 1) / n` in natural division), and the empty string yields the
empty sequence.  Determinism and purity hold because the model is a total
function of its arguments. -/
theorem split_text_into_chunks_spec (s : Str) (n : Nat) (hn : 0 < n) :
    (split_text_into_chunks s n).flatten = s
    ∧ (∀ c ∈ split_text_into_chunks s n, c.length ≤ n)
    ∧ (split_text_into_chunks s n).length = (s.length + n - 1) / n
    ∧ split_text_into_chunks [] n = [] :=
  ⟨split_join n hn s, split_chunk_le n hn s, split_length n hn s,
    split_text_into_chunks_nil n⟩

/-- Witness for C2 at the concrete input s = "hello world", n = 4. -/
theorem split_text_into_chunks_spec_witness :
    0 < 4
    ∧ ((split_text_into_chunks "hello world".toList 4).flatten = "hello world".toList
       ∧ (∀ c ∈ split_text_into_chunks "hello world".toList 4, c.length ≤ 4)
       ∧ (split_text_into_chunks "hello world".toList 4).length =
           ("hello world".toList.length + 4 - 1) / 4
       ∧ split_text_into_chunks [] 4 = []) :=
  ⟨by decide, split_text_into_chunks_spec "hello world".toList 4 (by decide)⟩

/-- C3: the Slack payload carries one section block whose body text is, for
chunk 1, exactly the spec's decorated format (icon, mentions, timestamp,
bracketed sender, LEVEL, colon-newline, chunk text) and, for every chunk
index greater than 1, exactly the raw chunk text; the display username and
the level-chosen emoji are also as configured. -/
theorem slack_set_body_format (name username : Str) (level : Level)
    (text : Str) (echo : Echo) (date : Str) :
    (slack_set_body name username level text 1 echo date).blocks =
      [{ type := "section".toList
         text := { type := "mrkdwn".toList
                   text := spec_slack_first_chunk_text (LEVELS level).text_icon
                     (render_echo echo) date name (LEVELS level).level text } }]
    ∧ (∀ chunk_id, 1 < chunk_id →
        (slack_set_body name username level text chunk_id echo date).blocks =
          [{ type := "section".toList
             text := { type := "mrkdwn".toList, text := text } }])
    ∧ (slack_set_body name username level text 1 echo date).username = username
    ∧ (slack_set_body name username level text 1 echo date).icon_emoji =
        (LEVELS level).icon_emoji := by
  refine ⟨?_, ?_, ?_, ?_⟩
  · rw [slack_set_body_chunk1]
  · intro chunk_id h
    rw [slack_set_body_contd name username level text chunk_id echo date h]
  · rw [slack_set_body_chunk1]
  · rw [slack_set_body_chunk1]

/-- Witness for C3 at a concrete input, with continuation chunk index 2. -/
theorem slack_set_body_format_witness :
    ((slack_set_body "app".toList "bot".toList Level.error "boom".toList 1
        Echo.none "d".toList).blocks =
      [{ type := "section".toList
         text := { type := "mrkdwn".toList
                   text := spec_slack_first_chunk_text
                     (LEVELS Level.error).text_icon (render_echo Echo.none)
                     "d".toList "app".toList (LEVELS Level.error).level
                     "boom".toList } }])
    ∧ (1 < 2)
    ∧ ((slack_set_body "app".toList "bot".toList Level.error "boom".toList 2
        Echo.none "d".toList).blocks =
      [{ type := "section".toList
         text := { type := "mrkdwn".toList, text := "boom".toList } }]) :=
  ⟨(slack_set_body_format "app".toList "bot".toList Level.error "boom".toList
      Echo.none "d".toList).1,
   by decide,
   (slack_set_body_format "app".toList "bot".toList Level.error "boom".toList
      Echo.none "d".toList).2.1 2 (by decide)⟩

/-- C4: the Teams payload is a single flat text field in the spec's format
(icon, timestamp, bracketed sender with two spaces after, LEVEL, colon and
two spaces, chunk text) for every chunk index — in particular the
decoration is never suppressed on continuation chunks. -/
theorem teams_set_body_format (name username : Str) (level : Level)
    (text : Str) (chunk_id : Nat) (echo : Echo) (date : Str) :
    teams_set_body name username level text chunk_id echo date =
      { text := spec_teams_chunk_text (LEVELS_TEAMS level).text_icon date name
          (LEVELS_TEAMS level).level text } := by
  unfold teams_set_body spec_teams_chunk_text
  simp [seg_bracket_two_spaces, seg_bracket_space, List.append_assoc]

/-- C5: mention rendering in the Slack payload builder — an absent value
renders empty, a single identifier gets one at-prefix, and a list renders
as at-prefixed elements joined by single spaces in order. -/
theorem render_echo_spec :
    render_echo Echo.none = []
    ∧ render_echo (Echo.single "bob".toList) = "@bob".toList
    ∧ render_echo (Echo.list ["bob".toList, "amy".toList]) = "@bob @amy".toList
    ∧ (∀ s, render_echo (Echo.single s) = '@' :: s)
    ∧ (∀ l, render_echo (Echo.list l) =
        List.intercalate " ".toList (l.map (fun x => '@' :: x))) :=
  ⟨rfl, by decide, by decide, fun s => rfl, fun l => rfl⟩

/-- C10: the Teams payload builder ignores the mentions argument — for any
two mentions values and otherwise identical inputs the payloads are
identical. -/
theorem teams_set_body_ignores_echo (name username : Str) (level : Level)
    (text : Str) (chunk_id : Nat) (e1 e2 : Echo) (date : Str) :
    teams_set_body name username level text chunk_id e1 date =
      teams_set_body name username level text chunk_id e2 date := rfl

/-- C6: for every text (including every non-empty one) and every transport
behaviour, the public operations and the underlying send_log_message return
normally: no exception escapes to the caller, the terminal delivery error
being caught and logged at the Notifier boundary. -/
theorem send_never_raises {B : Type} (n : AbstractNotifier B)
    (oracle : Nat → Bool) (clock : Nat → Str) (text : Option Str)
    (echo : Echo) (w : World B) :
    (∃ w2, info n oracle clock text echo w = (n, Except.ok w2))
    ∧ (∃ w2, warning n oracle clock text echo w = (n, Except.ok w2))
    ∧ (∃ w2, error n oracle clock text echo w = (n, Except.ok w2))
    ∧ ∀ level, ∃ w2,
        send_log_message n oracle clock level text echo w = (n, Except.ok w2) :=
  ⟨send_log_message_shape n oracle clock Level.info text echo w,
   send_log_message_shape n oracle clock Level.warning text echo w,
   send_log_message_shape n oracle clock Level.error text echo w,
   fun level => send_log_message_shape n oracle clock level text echo w⟩

/-- C7: calling any severity method with empty or absent text issues zero
HTTP POSTs, raises nothing, and returns normally, leaving the world
untouched. -/
theorem empty_text_noop {B : Type} (n : AbstractNotifier B)
    (oracle : Nat → Bool) (clock : Nat → Str) (echo : Echo) (w : World B)
    (text : Option Str) (h : truthy text = false) :
    info n oracle clock text echo w = (n, Except.ok w)
    ∧ warning n oracle clock text echo w = (n, Except.ok w)
    ∧ error n oracle clock text echo w = (n, Except.ok w) := by
  refine ⟨?_, ?_, ?_⟩ <;> simp [info, warning, error, send_log_message, h]

/-- Witness for C7 at absent (None) text on a concrete Slack notifier. -/
theorem empty_text_noop_witness :
    truthy Option.none = false
    ∧ (info (slack_notifier "https://h".toList Option.none Option.none)
        (fun _ => true) (fun _ => []) Option.none Echo.none ⟨[], []⟩ =
          (slack_notifier "https://h".toList Option.none Option.none,
            Except.ok ⟨[], []⟩)
      ∧ warning (slack_notifier "https://h".toList Option.none Option.none)
        (fun _ => true) (fun _ => []) Option.none Echo.none ⟨[], []⟩ =
          (slack_notifier "https://h".toList Option.none Option.none,
            Except.ok ⟨[], []⟩)
      ∧ error (slack_notifier "https://h".toList Option.none Option.none)
        (fun _ => true) (fun _ => []) Option.none Echo.none ⟨[], []⟩ =
          (slack_notifier "https://h".toList Option.none Option.none,
            Except.ok ⟨[], []⟩)) :=
  ⟨rfl, empty_text_noop (slack_notifier "https://h".toList Option.none Option.none)
    (fun _ => true) (fun _ => []) Echo.none ⟨[], []⟩ Option.none rfl⟩

/-- C8: the per-chunk retry policy issues at most MAX_FAILURE_ATTEMPTS (3)
POSTs with a fixed WAIT_AFTER_FAILURE (5000 ms) sleep between attempts; a
transport failing twice then succeeding yields overall success with exactly
3 attempts and 2 waits; a transport failing on all 3 attempts yields the
terminal NotifierError together with 3 attempts and 2 waits, and that error
reaching the Notifier layer is logged, not re-raised (the full call still
returns normally). -/
theorem send_message_retry_policy {B : Type} (oracle : Nat → Bool)
    (url : Str) (body : B) (w : World B) :
    ((send_message oracle url body w).2.posts.length ≤
        w.posts.length + MAX_FAILURE_ATTEMPTS)
    ∧ (oracle w.posts.length = false → oracle (w.posts.length + 1) = false →
        oracle (w.posts.length + 2) = true →
        send_message oracle url body w =
          (Except.ok (),
            { posts := w.posts ++ [(url, body), (url, body), (url, body)],
              waits := w.waits ++ [WAIT_AFTER_FAILURE, WAIT_AFTER_FAILURE] }))
    ∧ (oracle w.posts.length = false → oracle (w.posts.length + 1) = false →
        oracle (w.posts.length + 2) = false →
        send_message oracle url body w =
          (Except.error NotifierError.transport,
            { posts := w.posts ++ [(url, body), (url, body), (url, body)],
              waits := w.waits ++ [WAIT_AFTER_FAILURE, WAIT_AFTER_FAILURE] }))
    ∧ (∀ (n : AbstractNotifier B) (clock : Nat → Str) (level : Level)
          (echo : Echo) (t : Str),
        oracle w.posts.length = false → oracle (w.posts.length + 1) = false →
        oracle (w.posts.length + 2) = false → t ≠ [] →
        send_log_message n oracle clock level (Option.some t) echo w =
          (n, Except.ok
            { posts := w.posts ++ List.replicate 3
                (n.url, n.set_body level (t.take LIMIT) 1 echo (clock 1)),
              waits := w.waits ++ [WAIT_AFTER_FAILURE, WAIT_AFTER_FAILURE] })) :=
  ⟨send_message_posts_le oracle url body w,
   fun h0 h1 h2 => send_message_ffs oracle url body w h0 h1 h2,
   fun h0 h1 h2 => send_message_fff oracle url body w h0 h1 h2,
   fun n clock level echo t h0 h1 h2 ht =>
     send_log_message_allfail n oracle clock level echo t w h0 h1 h2 ht⟩

/-- Witness for C8: a transport failing twice then succeeding (oracle true
exactly at global attempt 2), a transport always failing, and the swallowed
terminal failure of a full Teams send, all at concrete inputs. -/
theorem send_message_retry_policy_witness :
    (send_message (fun k => k == 2) "u".toList (0 : Nat) ⟨[], []⟩ =
      (Except.ok (),
        { posts := [("u".toList, 0), ("u".toList, 0), ("u".toList, 0)],
          waits := [WAIT_AFTER_FAILURE, WAIT_AFTER_FAILURE] }))
    ∧ (send_message (fun _ => false) "u".toList (0 : Nat) ⟨[], []⟩ =
      (Except.error NotifierError.transport,
        { posts := [("u".toList, 0), ("u".toList, 0), ("u".toList, 0)],
          waits := [WAIT_AFTER_FAILURE, WAIT_AFTER_FAILURE] }))
    ∧ (send_log_message (teams_notifier "u".toList Option.none Option.none)
        (fun _ => false) (fun _ => "d".toList) Level.info
        (Option.some "hi".toList) Echo.none ⟨[], []⟩ =
      (teams_notifier "u".toList Option.none Option.none, Except.ok
        { posts := List.replicate 3
            ((teams_notifier "u".toList Option.none Option.none).url,
             (teams_notifier "u".toList Option.none Option.none).set_body
               Level.info ("hi".toList.take LIMIT) 1 Echo.none "d".toList),
          waits := [WAIT_AFTER_FAILURE, WAIT_AFTER_FAILURE] })) :=
  ⟨by simpa using
      (send_message_retry_policy (fun k => k == 2) "u".toList (0 : Nat)
        ⟨[], []⟩).2.1 rfl rfl rfl,
   by simpa using
      (send_message_retry_policy (fun _ => false) "u".toList (0 : Nat)
        ⟨[], []⟩).2.2.1 rfl rfl rfl,
   by simpa using
      (send_message_retry_policy (B := TeamsBody) (fun _ => false) "u".toList
        (teams_set_body [] [] Level.info [] 1 Echo.none []) ⟨[], []⟩).2.2.2
        (teams_notifier "u".toList Option.none Option.none)
        (fun _ => "d".toList) Level.info Echo.none "hi".toList
        rfl rfl rfl (by decide)⟩

/-- C9: every public operation leaves the notifier's configuration state
unchanged — the instance returned by a send is the one passed in, for the
generic notifier and for the Slack and Teams instances built with their
constructor-set url, name, and username. -/
theorem send_preserves_state {B : Type} (n : AbstractNotifier B)
    (oracle : Nat → Bool) (clock : Nat → Str) (level : Level)
    (text : Option Str) (echo : Echo) (w : World B) :
    (send_log_message n oracle clock level text echo w).1 = n
    ∧ (info n oracle clock text echo w).1 = n
    ∧ (warning n oracle clock text echo w).1 = n
    ∧ (error n oracle clock text echo w).1 = n
    ∧ (∀ url nm un (ws : World SlackBody),
        (send_log_message (slack_notifier url nm un) oracle clock
          level text echo ws).1 = slack_notifier url nm un)
    ∧ (∀ url nm un (wt : World TeamsBody),
        (send_log_message (teams_notifier url nm un) oracle clock
          level text echo wt).1 = teams_notifier url nm un) :=
  ⟨send_log_message_fst n oracle clock level text echo w,
   send_log_message_fst n oracle clock Level.info text echo w,
   send_log_message_fst n oracle clock Level.warning text echo w,
   send_log_message_fst n oracle clock Level.error text echo w,
   fun url nm un ws => send_log_message_fst (slack_notifier url nm un) oracle
     clock level text echo ws,
   fun url nm un wt => send_log_message_fst (teams_notifier url nm un) oracle
     clock level text echo wt⟩

/-- C1 (amended): when delivery of a chunk terminally fails after
exhausting all retry attempts, the raised NotifierError propagates out of
the chunk loop (the except clause is outside the loop), so the remaining
chunks of the same message are NOT built or attempted; the failure is
logged and not re-raised to the caller.  Concretely: aborting holds at any
chunk position, and a run whose transport always fails issues exactly the
3 attempts of chunk 1 and then returns normally, regardless of how many
chunks the message has. -/
theorem chunk_terminal_failure_aborts_rest {B : Type} (n : AbstractNotifier B)
    (oracle : Nat → Bool) (clock : Nat → Str) (level : Level) (echo : Echo)
    (w : World B) :
    (∀ (c : Str) (rest : List Str) (chunk_id : Nat) (e : NotifierError)
        (sw : World B),
      send_message oracle n.url (n.set_body level c chunk_id echo
        (clock chunk_id)) w = (Except.error e, sw) →
      send_chunks n oracle clock level echo (c :: rest) chunk_id w =
        (Except.error e, sw))
    ∧ (∀ t : Str,
        oracle w.posts.length = false → oracle (w.posts.length + 1) = false →
        oracle (w.posts.length + 2) = false → t ≠ [] →
        send_log_message n oracle clock level (Option.some t) echo w =
          (n, Except.ok
            { posts := w.posts ++ List.replicate 3
                (n.url, n.set_body level (t.take LIMIT) 1 echo (clock 1)),
              waits := w.waits ++ [WAIT_AFTER_FAILURE, WAIT_AFTER_FAILURE] })) :=
  ⟨fun c rest chunk_id e sw h =>
      send_chunks_cons_err n oracle clock level echo c rest chunk_id w e sw h,
   fun t h0 h1 h2 ht =>
      send_log_message_allfail n oracle clock level echo t w h0 h1 h2 ht⟩

/-- Witness for C1's amended theorem at a concrete one-chunk Slack send
whose transport always fails. -/
theorem chunk_terminal_failure_aborts_rest_witness :
    ((fun (_ : Nat) => false) 0 = false)
    ∧ ("x".toList ≠ [])
    ∧ (send_log_message (slack_notifier "u".toList Option.none Option.none)
        (fun _ => false) (fun _ => "d".toList) Level.error
        (Option.some "x".toList) Echo.none ⟨[], []⟩ =
      (slack_notifier "u".toList Option.none Option.none, Except.ok
        { posts := List.replicate 3
            ((slack_notifier "u".toList Option.none Option.none).url,
             (slack_notifier "u".toList Option.none Option.none).set_body
               Level.error ("x".toList.take LIMIT) 1 Echo.none "d".toList),
          waits := [WAIT_AFTER_FAILURE, WAIT_AFTER_FAILURE] })) :=
  ⟨rfl, by decide,
   by simpa using
     (chunk_terminal_failure_aborts_rest
        (slack_notifier "u".toList Option.none Option.none)
        (fun _ => false) (fun _ => "d".toList) Level.error Echo.none
        ⟨[], []⟩).2 "x".toList rfl rfl rfl (by decide)⟩

set_option maxRecDepth 10000 in
/-- C1 counterexample: a 2001-character message splits into 2 chunks, yet
with a transport that always fails the whole run issues exactly the 3
POSTs of chunk 1's payload — the chunk-2 payload appears in none of the
issued POSTs, refuting the claim that chunks after a terminally failed
chunk are still built and attempted. -/
theorem multichunk_abort_counterexample :
    (split_text_into_chunks (List.replicate 2001 'a') LIMIT).length = 2
    ∧ (send_log_message (slack_notifier "u".toList Option.none Option.none)
        (fun _ => false) (fun _ => "d".toList) Level.error
        (Option.some (List.replicate 2001 'a')) Echo.none ⟨[], []⟩ =
      (slack_notifier "u".toList Option.none Option.none, Except.ok
        { posts := List.replicate 3
            ((slack_notifier "u".toList Option.none Option.none).url,
             (slack_notifier "u".toList Option.none Option.none).set_body
               Level.error ((List.replicate 2001 'a').take LIMIT) 1 Echo.none
               "d".toList),
          waits := [WAIT_AFTER_FAILURE, WAIT_AFTER_FAILURE] }))
    ∧ ((slack_notifier "u".toList Option.none Option.none).url,
        (slack_notifier "u".toList Option.none Option.none).set_body
          Level.error ((List.replicate 2001 'a').drop LIMIT) 2 Echo.none
          "d".toList) ∉
        List.replicate 3
          ((slack_notifier "u".toList Option.none Option.none).url,
           (slack_notifier "u".toList Option.none Option.none).set_body
             Level.error ((List.replicate 2001 'a').take LIMIT) 1 Echo.none
             "d".toList) := by
  have ht : (List.replicate 2001 'a') ≠ [] := by
    intro hnil
    have hl := congrArg List.length hnil
    simp only [List.length_replicate, List.length_nil] at hl
    omega
  refine ⟨?_, ?_, ?_⟩
  · rw [split_length LIMIT (by decide) (List.replicate 2001 'a'),
      List.length_replicate]
    decide
  · simpa only [List.nil_append] using
      send_log_message_allfail (slack_notifier "u".toList Option.none Option.none)
        (fun _ => false) (fun _ => "d".toList) Level.error Echo.none
        (List.replicate 2001 'a') ⟨[], []⟩ rfl rfl rfl ht
  · intro hmem
    have hpair := List.eq_of_mem_replicate hmem
    have hbody := congrArg Prod.snd hpair
    have hblocks := congrArg SlackBody.blocks hbody
    rw [show (slack_notifier "u".toList Option.none Option.none).set_body
          Level.error ((List.replicate 2001 'a').drop LIMIT) 2 Echo.none
          "d".toList =
        slack_set_body "slack_bot.notifications".toList
          "notifications.py".toList Level.error
          ((List.replicate 2001 'a').drop LIMIT) 2 Echo.none "d".toList
        from rfl,
      show (slack_notifier "u".toList Option.none Option.none).set_body
          Level.error ((List.replicate 2001 'a').take LIMIT) 1 Echo.none
          "d".toList =
        slack_set_body "slack_bot.notifications".toList
          "notifications.py".toList Level.error
          ((List.replicate 2001 'a').take LIMIT) 1 Echo.none "d".toList
        from rfl,
      slack_set_body_contd "slack_bot.notifications".toList
        "notifications.py".toList Level.error
        ((List.replicate 2001 'a').drop LIMIT) 2 Echo.none "d".toList (by decide),
      slack_set_body_chunk1] at hblocks
    have htext := congrArg
      (fun bs => ((bs.getD 0 { type := [], text := { type := [], text := [] } }).text).text)
      hblocks
    have hlen := congrArg List.length htext
    simp only [spec_slack_first_chunk_text, List.getD_cons_zero,
      List.length_append, List.length_take, List.length_drop,
      List.length_replicate, LIMIT] at hlen
    omega
